import Mathlib

/-!
Verification development for the `uc_intg_cctv` security-camera integration.

The Python sources under `uc_intg_cctv/` are shallowly embedded below:
pure computations become Lean functions, the stateful entities become
explicit state records with functions from state to state, and the
asynchronous stream loop becomes a per-tick step function driven by an
event describing what happened during that tick (snapshot fetched,
fetch failed, task cancelled, unexpected exception).
-/

set_option maxHeartbeats 1000000
set_option maxRecDepth 40000

namespace CCTV

/-! ## Status codes (ucapi.StatusCodes as used by the integration) -/

inductive StatusCode where
  | ok
  | badRequest
  | serverError
deriving DecidableEq, Repr

/-! ## Snapshot client (`client.py`)

`SecurityCameraClient._is_valid_image` checks the magic bytes and a
minimum size; `get_snapshot` accepts a response body only for
HTTP 200 and a valid image.  Bodies are modelled as lists of byte
values. -/

/-- JPEG SOI marker `FF D8 FF` (client.py line 118). -/
def jpegMarker : List Nat := [0xff, 0xd8, 0xff]

/-- PNG signature `89 50 4E 47 0D 0A 1A 0A` (client.py line 120). -/
def pngSignature : List Nat := [0x89, 0x50, 0x4e, 0x47, 0x0d, 0x0a, 0x1a, 0x0a]

/-- `pat` is an initial segment of `data`; models `bytes.startswith`. -/
def listStartsWith : List Nat → List Nat → Bool
  | [], _ => true
  | _ :: _, [] => false
  | p :: ps, b :: bs => (p == b) && listStartsWith ps bs

/-- `SecurityCameraClient._is_valid_image` (client.py lines 115-125). -/
def isValidImageData (data : List Nat) : Bool :=
  if listStartsWith jpegMarker data then decide (1000 < data.length)
  else if listStartsWith pngSignature data then decide (1000 < data.length)
  else false

/-- `SecurityCameraClient.get_snapshot` (client.py lines 88-113), with the
HTTP exchange abstracted to the observed status code and body.  Transport
errors (timeout, exceptions) also return `none` in the code; they are not
modelled as they carry no body to accept. -/
def get_snapshot (status : Nat) (body : List Nat) : Option (List Nat) :=
  if status = 200 then
    if isValidImageData body then some body else none
  else none

/-! ### Image optimisation (`optimize_image_for_remote`, client.py 127-182)

The resize step computes target dimensions from the source dimensions;
Python float ratios and `int()` truncation are modelled as exact rational
arithmetic with floor, which for nonnegative integers is `Nat` division. -/

/-- Resize-dimension computation (client.py lines 132-143).  The code
compares `img_ratio = w/h` with `screen_ratio = 320/240`; for positive
`w h` that comparison is `240 * w > 320 * h`.  Branch one returns
`(320, int(320 * h / w))`, branch two `(int(240 * w / h), 240)`. -/
def resizeDims (w h : Nat) : Nat × Nat :=
  if 240 * w > 320 * h then
    (320, 320 * h / w)
  else
    (240 * w / h, 240)

/-- The JPEG quality-reduction loop (client.py lines 150-169) abstracted
over the encoder: `enc q` is the size in bytes of the image re-encoded at
quality `q`.  The Python loop encodes at quality 85 and steps down by 10
while `quality > 20` and the encoded size exceeds the target, so the
qualities ever encoded are 85, 75, 65, 55, 45, 35, 25: after encoding at
25 the next candidate 15 fails the `quality > 20` guard and the buffer
from quality 25 is emitted.  We index those candidate qualities as
`25 + 10 * k` and recurse on `k`; the result is the quality whose encoding
is finally emitted.  The size test `size_kb <= max_size_kb` with
`size_kb = bytes / 1024` is exactly `bytes ≤ maxBytes` for
`maxBytes = max_size_kb * 1024`. -/
def qualityStep (enc : Nat → Nat) (maxBytes : Nat) : Nat → Nat
  | 0 => 25
  | k + 1 =>
    if enc (25 + 10 * (k + 1)) ≤ maxBytes then 25 + 10 * (k + 1)
    else qualityStep enc maxBytes k

/-- Quality of the emitted encoding; the loop starts at quality
`85 = 25 + 10 * 6`. -/
def finalQuality (enc : Nat → Nat) (maxBytes : Nat) : Nat :=
  qualityStep enc maxBytes 6

/-- Size in bytes of the emitted encoding. -/
def optimizedSize (enc : Nat → Nat) (maxBytes : Nat) : Nat :=
  enc (finalQuality enc maxBytes)

/-! ### Helper lemmas for the quality loop -/

theorem qualityStep_spec (enc : Nat → Nat) (maxBytes : Nat) (k : Nat) :
    qualityStep enc maxBytes k % 10 = 5 ∧
    25 ≤ qualityStep enc maxBytes k ∧
    qualityStep enc maxBytes k ≤ 25 + 10 * k ∧
    (enc (qualityStep enc maxBytes k) ≤ maxBytes ∨ qualityStep enc maxBytes k = 25) ∧
    (∀ j, qualityStep enc maxBytes k < j → j ≤ 25 + 10 * k → j % 10 = 5 →
      maxBytes < enc j) := by
  induction k with
  | zero =>
    simp only [qualityStep]
    refine ⟨by decide, by decide, by decide, Or.inr trivial, ?_⟩
    intro j hj hj2 _
    omega
  | succ k ih =>
    by_cases h : enc (25 + 10 * (k + 1)) ≤ maxBytes
    · simp only [qualityStep, if_pos h]
      refine ⟨by omega, by omega, by omega, Or.inl h, ?_⟩
      intro j hj hj2 _
      omega
    · simp only [qualityStep, if_neg h]
      obtain ⟨h1, h2, h3, h4, h5⟩ := ih
      refine ⟨h1, h2, by omega, h4, ?_⟩
      intro j hj hj2 hj3
      by_cases hle : j ≤ 25 + 10 * k
      · exact h5 j hj hle hj3
      · have : j = 25 + 10 * (k + 1) := by omega
        subst this
        omega

/-! ## Claim C2: JPEG quality stepping -/

/-- C2 counterexample: the claim states the loop keeps stepping down "while
the re-encoded size exceeds max_output_kb, stopping at quality 20
regardless of size", so that an oversize result can occur only "in case
quality has already been reduced to the floor of 20".  For an encoder
whose output is 200000 bytes at every quality (target 80KB = 81920
bytes), the code emits the encoding made at quality 25, never encoding at
quality 20, and the emitted size exceeds the target while the quality is
not 20 — the claimed disjunction is false. -/
theorem quality_floor_claim_false :
    finalQuality (fun _ => 200000) 81920 = 25 ∧
    optimizedSize (fun _ => 200000) 81920 = 200000 ∧
    ¬ (optimizedSize (fun _ => 200000) 81920 ≤ 81920) ∧
    finalQuality (fun _ => 200000) 81920 ≠ 20 := by
  refine ⟨rfl, rfl, by decide, by decide⟩

/-- C2 (amended): re-encoding starts at quality 85 and steps down by 10
while the re-encoded size exceeds `max_output_kb`; the guard
`quality > 20` together with the step of 10 from 85 makes quality 25 the
last encoding performed, so the emitted size is at most the target unless
quality has been reduced to the floor of 25, in which case the result may
exceed the target.  Every quality above the emitted one (among the
candidates 85, 75, ..., 25) produced an oversize encoding. -/
theorem optimize_quality_spec (enc : Nat → Nat) (maxBytes : Nat) :
    finalQuality enc maxBytes % 10 = 5 ∧
    25 ≤ finalQuality enc maxBytes ∧
    finalQuality enc maxBytes ≤ 85 ∧
    (optimizedSize enc maxBytes ≤ maxBytes ∨ finalQuality enc maxBytes = 25) ∧
    (∀ j, finalQuality enc maxBytes < j → j ≤ 85 → j % 10 = 5 →
      maxBytes < enc j) := by
  have h := qualityStep_spec enc maxBytes 6
  simpa [finalQuality, optimizedSize] using h

/-- Witness for `optimize_quality_spec` at a concrete always-oversize
encoder: quality bottoms out at 25 and the untried quality 35 was indeed
oversize. -/
theorem optimize_quality_spec_witness :
    (81920 : Nat) < 100000 ∧ finalQuality (fun _ => 100000) 81920 % 10 = 5 :=
  ⟨(optimize_quality_spec (fun _ => 100000) 81920).2.2.2.2 35 (by decide)
      (by decide) (by decide),
   (optimize_quality_spec (fun _ => 100000) 81920).1⟩

/-! ## Claim C4: snapshot acceptance -/

/-- C4: a response body is accepted as a snapshot iff the HTTP status is
200, the body begins with the JPEG SOI marker or the PNG signature, and
the body length exceeds 1000 bytes; on acceptance the returned value is
the body itself, and on rejection nothing is returned. -/
theorem get_snapshot_spec (status : Nat) (body : List Nat) :
    ((get_snapshot status body).isSome = true ↔
      status = 200 ∧
      (listStartsWith jpegMarker body = true ∨
        listStartsWith pngSignature body = true) ∧
      1000 < body.length) ∧
    (∀ v, get_snapshot status body = some v → v = body) := by
  constructor
  · by_cases h0 : status = 200 <;>
      by_cases hj : listStartsWith jpegMarker body = true <;>
        by_cases hp : listStartsWith pngSignature body = true <;>
          by_cases hl : 1000 < body.length <;>
            simp [get_snapshot, isValidImageData, h0, hj, hp, hl]
  · intro v hv
    unfold get_snapshot at hv
    split_ifs at hv with h0 h1
    exact (Option.some_inj.mp hv).symm

/-- A JPEG body comfortably above the 1000-byte threshold. -/
def bigJpeg : List Nat := jpegMarker ++ List.replicate 1001 0

/-- Witness for `get_snapshot_spec`: a 200 response with a 1004-byte JPEG
body is accepted and returned unchanged. -/
theorem get_snapshot_spec_witness :
    (get_snapshot 200 bigJpeg).isSome = true ∧ bigJpeg = bigJpeg :=
  ⟨(get_snapshot_spec 200 bigJpeg).1.mpr ⟨rfl, Or.inl (by decide), by decide⟩,
   (get_snapshot_spec 200 bigJpeg).2 bigJpeg (by decide)⟩

/-! ## Claim C10: resize dimensions -/

/-- C10: the resize step fits the image within the 320×240 canvas, one
edge exactly meets the canvas, the aspect ratio is preserved up to
integer truncation (the scaled edge is the floor of the exact rational
rescale, stated via the floor characterisation), and images smaller than
320×240 are upscaled rather than passed through. -/
theorem resizeDims_spec (w h : Nat) (hw : 0 < w) (hh : 0 < h) :
    (resizeDims w h).1 ≤ 320 ∧ (resizeDims w h).2 ≤ 240 ∧
    ((resizeDims w h).1 = 320 ∨ (resizeDims w h).2 = 240) ∧
    ((240 * w > 320 * h ∧ (resizeDims w h).1 = 320 ∧
        (resizeDims w h).2 * w ≤ 320 * h ∧
        320 * h < ((resizeDims w h).2 + 1) * w) ∨
     (240 * w ≤ 320 * h ∧ (resizeDims w h).2 = 240 ∧
        (resizeDims w h).1 * h ≤ 240 * w ∧
        240 * w < ((resizeDims w h).1 + 1) * h)) ∧
    (w < 320 → h < 240 → resizeDims w h ≠ (w, h)) := by
  unfold resizeDims
  split
  · rename_i hcond
    have hup : 320 * h / w * w ≤ 320 * h := Nat.div_mul_le_self _ _
    have hd := Nat.div_add_mod (320 * h) w
    have hm := Nat.mod_lt (320 * h) hw
    have hlow : 320 * h < (320 * h / w + 1) * w := by
      have hx : (320 * h / w + 1) * w = w * (320 * h / w) + w := by ring
      omega
    have hle : 320 * h / w ≤ 240 := by
      calc 320 * h / w ≤ 240 * w / w := Nat.div_le_div_right (by omega)
        _ = 240 := Nat.mul_div_cancel 240 hw
    exact ⟨le_refl 320, hle, Or.inl rfl, Or.inl ⟨hcond, rfl, hup, hlow⟩,
      fun hws _ hpair => absurd (congrArg Prod.fst hpair) (by simp; omega)⟩
  · rename_i hcond
    have hcond2 : 240 * w ≤ 320 * h := by omega
    have hup : 240 * w / h * h ≤ 240 * w := Nat.div_mul_le_self _ _
    have hd := Nat.div_add_mod (240 * w) h
    have hm := Nat.mod_lt (240 * w) hh
    have hlow : 240 * w < (240 * w / h + 1) * h := by
      have hx : (240 * w / h + 1) * h = h * (240 * w / h) + h := by ring
      omega
    have hle : 240 * w / h ≤ 320 := by
      calc 240 * w / h ≤ 320 * h / h := Nat.div_le_div_right hcond2
        _ = 320 := Nat.mul_div_cancel 320 hh
    exact ⟨hle, le_refl 240, Or.inr rfl, Or.inr ⟨hcond2, rfl, hup, hlow⟩,
      fun _ hhs hpair => absurd (congrArg Prod.snd hpair) (by simp; omega)⟩

/-- Witness for `resizeDims_spec` at a 4:3 source larger than the canvas:
a 640×480 image maps onto the full 320×240 canvas. -/
theorem resizeDims_spec_witness :
    (resizeDims 640 480).1 ≤ 320 ∧ (resizeDims 640 480).2 ≤ 240 :=
  ⟨(resizeDims_spec 640 480 (by decide) (by decide)).1,
   (resizeDims_spec 640 480 (by decide) (by decide)).2.1⟩

/-! ## Media player entity (`media_player.py`)

`SecurityCameraMediaPlayer` holds the ucapi media-player attributes plus
the streaming flag.  `published` records the attribute snapshots pushed
to the remote by `_update_remote_state`; a push happens only when the
entity is subscribed (`configured_entities.contains`). -/

/-- The ucapi media-player states used by the integration. -/
inductive PState where
  | off
  | playing
  | stOn
  | unavailable
deriving DecidableEq, Repr

/-- One attribute snapshot pushed by `_update_remote_state`
(media_player.py lines 185-200). -/
structure Pub where
  pstate : PState
  psource : String
  ptitle : String
  pimage : String
  partist : String
deriving DecidableEq, Repr

/-- State of `SecurityCameraMediaPlayer`.  `sourceList` doubles as the
key set of the `clients` dict (both are built from the configured camera
names); `hasClient` models `current_client is not None`. -/
structure MPState where
  state : PState
  source : String
  sourceList : List String
  title : String
  image : String
  artist : String
  currentSource : String
  hasClient : Bool
  streaming : Bool
  subscribed : Bool
  published : List Pub
deriving DecidableEq, Repr

/-- `is_on` (media_player.py lines 98-100): state is PLAYING or ON. -/
def isOn (s : MPState) : Bool :=
  s.state == .playing || s.state == .stOn

/-- `_update_remote_state` (lines 185-200): push the current attribute
snapshot when subscribed, else skip. -/
def updateRemoteState (s : MPState) : MPState :=
  if s.subscribed then
    {s with published := s.published ++ [⟨s.state, s.source, s.title, s.image, s.artist⟩]}
  else s

/-- `start_image_streaming` (lines 202-216) restricted to the flagged
state: no-op when already streaming or without a client, else set the
flag (the spawned task is modelled separately in `StreamSys`). -/
def startStream (s : MPState) : MPState :=
  if s.streaming then s
  else if !s.hasClient then s
  else {s with streaming := true}

/-- `stop_image_streaming` (lines 218-231) restricted to the flagged
state. -/
def stopStream (s : MPState) : MPState :=
  {s with streaming := false}

/-- `_turn_on` (lines 122-137). -/
def turnOn (s : MPState) : MPState × StatusCode :=
  if !s.hasClient then (s, .badRequest)
  else
    let s1 := {s with state := .playing, title := s.currentSource}
    let s2 := updateRemoteState s1
    (startStream s2, .ok)

/-- `_turn_off` (lines 139-150). -/
def turnOff (s : MPState) : MPState × StatusCode :=
  let s1 := stopStream s
  let s2 := {s1 with state := .off, image := ""}
  (updateRemoteState s2, .ok)

/-- `_select_source` (lines 152-183): reject empty or unknown names, else
stop a running stream, swap client and source, publish, then restart the
stream only when `is_on()`. -/
def selectSource (s : MPState) (name : String) : MPState × StatusCode :=
  if name = "" ∨ name ∉ s.sourceList then (s, .badRequest)
  else
    let s1 := if s.streaming then stopStream s else s
    let s2 := {s1 with currentSource := name, hasClient := true,
                       source := name, title := name}
    let s3 := updateRemoteState s2
    let s4 := if isOn s3 then startStream s3 else s3
    (s4, .ok)

/-- `_handle_stream_failure` (lines 294-303). -/
def handleStreamFailure (s : MPState) : MPState :=
  let s1 := {s with state := .unavailable, artist := "Camera Offline", image := ""}
  let s2 := updateRemoteState s1
  {s2 with streaming := false}

/-! ## Stream loop (`_image_stream_loop`, media_player.py lines 233-292)

One loop iteration is modelled as a step function over the loop state
(entity state, the loop-local `consecutive_failures` counter and whether
the loop has ended) driven by an event describing what the awaited calls
produced during the tick. -/

/-- What happened during one tick: `snapshotOk b` is a truthy
`get_snapshot` result together with the `optimize_image_for_remote`
outcome, `snapshotFail` a falsy one, `cancelled` a CancelledError raised
at any await inside the tick, `errored` any other exception. -/
inductive TickEvent where
  | snapshotOk (optimized : Option String)
  | snapshotFail
  | cancelled
  | errored
deriving DecidableEq, Repr

/-- Loop-local state: `failures` is the `consecutive_failures` variable,
`ended` records that the loop has returned. -/
structure LoopState where
  mp : MPState
  failures : Nat
  ended : Bool
deriving DecidableEq, Repr

/-- `max_failures` (line 238). -/
def maxFailures : Nat := 5

/-- A freshly spawned loop: `consecutive_failures = 0` (line 237). -/
def startLoop (mp : MPState) : LoopState := ⟨mp, 0, false⟩

/-- The shared failure bookkeeping of a tick (lines 264-274 and 282-290):
increment the counter; at the threshold run `_handle_stream_failure` and
leave the loop. -/
def tickFail (ls : LoopState) : LoopState :=
  let f := ls.failures + 1
  if maxFailures ≤ f then ⟨handleStreamFailure ls.mp, f, true⟩
  else ⟨ls.mp, f, ls.ended⟩

/-- One iteration of `_image_stream_loop`.  The `while` condition and the
`is_on` check are evaluated first; then the tick event decides the
branch.  A successful optimized snapshot writes the data URI, publishes
and resets the counter; `CancelledError` leaves the loop untouched. -/
def tick (ls : LoopState) (ev : TickEvent) : LoopState :=
  if ls.ended then ls
  else if ¬ (ls.mp.streaming = true ∧ ls.mp.hasClient = true) then
    ⟨ls.mp, ls.failures, true⟩
  else if ¬ (isOn ls.mp = true) then ⟨ls.mp, ls.failures, true⟩
  else
    match ev with
    | .cancelled => ⟨ls.mp, ls.failures, true⟩
    | .snapshotOk (some b64) =>
        let mp1 := {ls.mp with image := "data:image/jpeg;base64," ++ b64}
        ⟨updateRemoteState mp1, 0, ls.ended⟩
    | .snapshotOk none => tickFail ls
    | .snapshotFail => tickFail ls
    | .errored => tickFail ls

/-! ## Claim C7: SelectSource -/

/-- C7: `SelectSource(name)` with an unknown (or empty) name returns
BAD_REQUEST and leaves the whole entity state unchanged; with a valid
name it returns OK, swaps the active client, records the selection,
updates the display title, publishes exactly one snapshot (when
subscribed), and the stream loop ends up running iff the power state was
ON (PLAYING/ON); any previously running stream was stopped before the
swap. -/
theorem selectSource_spec (s : MPState) (name : String) :
    ((name = "" ∨ name ∉ s.sourceList) → selectSource s name = (s, .badRequest)) ∧
    (name ≠ "" → name ∈ s.sourceList →
      (selectSource s name).2 = .ok ∧
      (selectSource s name).1.currentSource = name ∧
      (selectSource s name).1.hasClient = true ∧
      (selectSource s name).1.source = name ∧
      (selectSource s name).1.title = name ∧
      (selectSource s name).1.streaming = isOn s ∧
      (selectSource s name).1.state = s.state ∧
      (selectSource s name).1.sourceList = s.sourceList ∧
      (selectSource s name).1.published.length =
        s.published.length + (if s.subscribed = true then 1 else 0)) := by
  constructor
  · intro h
    simp [selectSource, h]
  · intro h1 h2
    have hcond : ¬ (name = "" ∨ name ∉ s.sourceList) := by
      push_neg
      exact ⟨h1, h2⟩
    by_cases hon : isOn s = true <;>
      by_cases hsub : s.subscribed = true <;>
        by_cases hstr : s.streaming = true <;>
          simp_all [selectSource, updateRemoteState, startStream, stopStream, isOn]

/-- A concrete playing, streaming, subscribed entity over cameras A, B. -/
def mpSample : MPState :=
  { state := .playing, source := "A", sourceList := ["A", "B"], title := "A",
    image := "", artist := "Camera View", currentSource := "A",
    hasClient := true, streaming := true, subscribed := true, published := [] }

/-- Witness for `selectSource_spec`: an unknown name is rejected with the
state untouched; a known name succeeds. -/
theorem selectSource_spec_witness :
    selectSource mpSample "C" = (mpSample, .badRequest) ∧
    (selectSource mpSample "B").2 = .ok :=
  ⟨(selectSource_spec mpSample "C").1 (Or.inr (by decide)),
   ((selectSource_spec mpSample "B").2 (by decide) (by decide)).1⟩

/-! ## Claim C3: reselecting after a stream failure -/

/-- The entity state right after `_handle_stream_failure`: UNAVAILABLE,
image cleared, not streaming. -/
def mpUnavail : MPState :=
  { state := .unavailable, source := "A", sourceList := ["A", "B"], title := "A",
    image := "", artist := "Camera Offline", currentSource := "A",
    hasClient := true, streaming := false, subscribed := true, published := [] }

/-- C3 counterexample: with the entity UNAVAILABLE after a stream
failure, `SelectSource("B")` with a valid configured name returns OK but
does NOT clear the unavailable state and does NOT resume polling:
`_select_source` never touches the state attribute, and its
`is_on()` check is false for UNAVAILABLE, so no stream is started. -/
theorem select_source_unavailable_claim_false :
    (selectSource mpUnavail "B").2 = .ok ∧
    (selectSource mpUnavail "B").1.state = .unavailable ∧
    (selectSource mpUnavail "B").1.streaming = false := by decide

/-- C3 (amended): after the entity has become UNAVAILABLE, a
`SelectSource` with a valid configured name records the new selection
but leaves the unavailable state in place and does not resume polling;
an explicit power-on afterwards clears the flag (state becomes PLAYING)
and restarts streaming. -/
theorem select_source_unavailable_spec (s : MPState) (name : String)
    (hu : s.state = .unavailable) (h1 : name ≠ "") (h2 : name ∈ s.sourceList) :
    (selectSource s name).1.state = .unavailable ∧
    (selectSource s name).1.streaming = false ∧
    (selectSource s name).1.currentSource = name ∧
    (turnOn (selectSource s name).1).1.state = .playing ∧
    (turnOn (selectSource s name).1).1.streaming = true := by
  have hcond : ¬ (name = "" ∨ name ∉ s.sourceList) := by
    push_neg
    exact ⟨h1, h2⟩
  by_cases hsub : s.subscribed = true <;> by_cases hstr : s.streaming = true <;>
    simp_all [selectSource, turnOn, updateRemoteState, startStream, stopStream, isOn]

/-- Witness for `select_source_unavailable_spec` at the concrete
post-failure state. -/
theorem select_source_unavailable_spec_witness :
    (selectSource mpUnavail "B").1.state = .unavailable :=
  (select_source_unavailable_spec mpUnavail "B" rfl (by decide) (by decide)).1

/-! ## Claim C6: failure threshold -/

/-- C6: on the tick where the consecutive-failure counter reaches the
threshold of 5, the loop marks the entity UNAVAILABLE, clears the
displayed image, publishes the new state (when subscribed), stops
streaming and ends the loop — all expressed on the step function, which
returns normally (nothing escapes to the rest of the integration).  A
subsequent explicit power-off/power-on cycle brings the entity back to
PLAYING with streaming running, and the freshly spawned loop starts with
its consecutive-failure counter at 0. -/
theorem failure_threshold_spec (ls : LoopState) (ev : TickEvent)
    (hend : ls.ended = false)
    (hs : ls.mp.streaming = true) (hc : ls.mp.hasClient = true)
    (hon : isOn ls.mp = true) (hf : ls.failures = 4)
    (hev : ev = .snapshotFail ∨ ev = .snapshotOk none ∨ ev = .errored) :
    (tick ls ev).mp.state = .unavailable ∧
    (tick ls ev).mp.image = "" ∧
    (tick ls ev).mp.streaming = false ∧
    (tick ls ev).ended = true ∧
    (ls.mp.subscribed = true →
      (tick ls ev).mp.published.length = ls.mp.published.length + 1) ∧
    (turnOn (turnOff (tick ls ev).mp).1).1.state = .playing ∧
    (turnOn (turnOff (tick ls ev).mp).1).1.streaming = true ∧
    (startLoop (turnOn (turnOff (tick ls ev).mp).1).1).failures = 0 := by
  rcases hev with rfl | rfl | rfl <;>
    by_cases hsub : ls.mp.subscribed = true <;>
      simp_all [tick, tickFail, handleStreamFailure, updateRemoteState,
        turnOn, turnOff, startStream, stopStream, startLoop, maxFailures, isOn]

/-- The sample entity as seen by a live stream loop with 4 accumulated
failures. -/
def lsSample : LoopState := ⟨mpSample, 4, false⟩

/-- Witness for `failure_threshold_spec`: the fifth consecutive fetch
failure flips the sample entity to UNAVAILABLE. -/
theorem failure_threshold_spec_witness :
    (tick lsSample .snapshotFail).mp.state = .unavailable :=
  (failure_threshold_spec lsSample .snapshotFail rfl rfl rfl (by decide) rfl
    (Or.inl rfl)).1

/-! ## Claim C9: cancellation is not a failure -/

/-- C9: a cancellation delivered during a tick ends the loop with the
entity state and the consecutive-failure counter untouched (so the
unavailable handling cannot trigger), while a failed fetch, a failed
transcode or an unexpected per-tick exception each increment the counter
(and a successful publish resets it to 0). -/
theorem cancellation_spec (ls : LoopState)
    (hend : ls.ended = false)
    (hs : ls.mp.streaming = true) (hc : ls.mp.hasClient = true)
    (hon : isOn ls.mp = true) :
    (tick ls .cancelled).mp = ls.mp ∧
    (tick ls .cancelled).failures = ls.failures ∧
    (tick ls .cancelled).ended = true ∧
    (∀ b64, (tick ls (.snapshotOk (some b64))).failures = 0) ∧
    (tick ls (.snapshotOk none)).failures = ls.failures + 1 ∧
    (tick ls .snapshotFail).failures = ls.failures + 1 ∧
    (tick ls .errored).failures = ls.failures + 1 := by
  by_cases h5 : maxFailures ≤ ls.failures + 1 <;>
    simp_all [tick, tickFail, maxFailures]
  split <;> simp

/-- Witness for `cancellation_spec`: cancelling the sample stream at 4
accumulated failures leaves the counter at 4 and the entity unchanged. -/
theorem cancellation_spec_witness :
    (tick lsSample .cancelled).failures = lsSample.failures :=
  (cancellation_spec lsSample rfl rfl rfl (by decide)).2.1

/-! ## Camera selector entity (`camera_select.py`) -/

/-- State of `CameraSelect`: the ordered option list and the currently
displayed option. -/
structure SelState where
  options : List String
  current : String
deriving DecidableEq, Repr

/-- `CameraSelect._select_camera` (camera_select.py lines 104-136).
`mpPresent` models `self.media_player` being non-None and `mpResult`
the status returned by the media player `_select_source` call.  The
code updates `CURRENT_OPTION` and pushes the remote state at lines
120-121, before the media player is invoked. -/
def selectCamera (s : SelState) (mpPresent : Bool) (mpResult : StatusCode)
    (name : String) : SelState × StatusCode :=
  if name = "" ∨ name ∉ s.options then (s, .badRequest)
  else
    let s1 : SelState := {s with current := name}
    if mpPresent then (s1, mpResult) else (s1, .serverError)

/-- The selector-state effect of `_select_camera`, which does not depend
on the media-player outcome. -/
def selectCameraState (s : SelState) (name : String) : SelState :=
  (selectCamera s true .ok name).1

/-- First index of `x` in a list; models Python `list.index`, with
`none` where Python raises ValueError. -/
def idxOf (x : String) : List String → Option Nat
  | [] => none
  | y :: ys => if y = x then some 0 else (idxOf x ys).map (· + 1)

/-- List indexing `options[k]`, total with default `""`; callers below
only use it at indices below the length. -/
def nth : List String → Nat → String
  | [], _ => ""
  | y :: _, 0 => y
  | _ :: ys, j + 1 => nth ys j

/-- `_select_next_camera` (lines 138-152): the next index modulo the
list length, routed through `_select_camera`. -/
def selNext (s : SelState) : SelState :=
  match idxOf s.current s.options with
  | none => s
  | some i =>
      selectCameraState s (nth s.options ((i + 1) % s.options.length))

/-- `_select_previous_camera` (lines 154-168).  Python `(i - 1) % n`
yields the nonnegative representative; for `0 ≤ i < n` it equals
`(i + n - 1) % n`. -/
def selPrev (s : SelState) : SelState :=
  match idxOf s.current s.options with
  | none => s
  | some i =>
      selectCameraState s
        (nth s.options ((i + s.options.length - 1) % s.options.length))

/-! ### Selector helper lemmas -/

theorem selectCameraState_valid (s : SelState) (name : String)
    (h1 : name ≠ "") (h2 : name ∈ s.options) :
    selectCameraState s name = {s with current := name} := by
  simp [selectCameraState, selectCamera, h1, h2]

theorem idxOf_some_spec {x : String} :
    ∀ (l : List String) (i : Nat), idxOf x l = some i →
      i < l.length ∧ nth l i = x := by
  intro l
  induction l with
  | nil => intro i h; simp [idxOf] at h
  | cons y ys ih =>
    intro i h
    by_cases hy : y = x
    · simp [idxOf, hy] at h
      subst h
      simp [nth, hy]
    · simp [idxOf, hy] at h
      obtain ⟨j, hj, rfl⟩ := h
      obtain ⟨h1, h2⟩ := ih j hj
      exact ⟨by simp; omega, by simpa [nth] using h2⟩

theorem nth_mem :
    ∀ (l : List String) (i : Nat), i < l.length → nth l i ∈ l := by
  intro l
  induction l with
  | nil => intro i h; simp at h
  | cons y ys ih =>
    intro i h
    cases i with
    | zero => simp [nth]
    | succ j =>
      have hj : j < ys.length := by simpa using h
      exact List.mem_cons.mpr (Or.inr (by simpa [nth] using ih j hj))

theorem idxOf_of_mem {x : String} :
    ∀ {l : List String}, x ∈ l → ∃ i, idxOf x l = some i := by
  intro l
  induction l with
  | nil => intro h; simp at h
  | cons y ys ih =>
    intro h
    by_cases hy : y = x
    · exact ⟨0, by simp [idxOf, hy]⟩
    · have hx : x ∈ ys := by
        rcases List.mem_cons.mp h with h1 | h1
        · exact absurd h1.symm hy
        · exact h1
      obtain ⟨j, hj⟩ := ih hx
      exact ⟨j + 1, by simp [idxOf, hy, hj]⟩

theorem idxOf_nth_nodup :
    ∀ (l : List String), l.Nodup → ∀ i, i < l.length →
      idxOf (nth l i) l = some i := by
  intro l
  induction l with
  | nil => intro _ i h; simp at h
  | cons y ys ih =>
    intro hnd i hi
    obtain ⟨hy, hnd2⟩ := List.nodup_cons.mp hnd
    cases i with
    | zero => simp [idxOf, nth]
    | succ j =>
      have hj : j < ys.length := by simpa using hi
      have hmem : nth ys j ∈ ys := nth_mem ys j hj
      have hne : ¬ (y = nth ys j) := fun he => hy (he ▸ hmem)
      simp [idxOf, nth, hne, ih hnd2 j hj]

/-! ## Claim C5: next/previous round-trip and wrapping -/

/-- C5: on an option list of length at least 2 whose entries are the
configured camera names (unique and non-empty, the data-model invariant),
with the current option present in the list, SelectNext followed by
SelectPrevious restores the original selector state, SelectNext from the
last option wraps to the first, and SelectPrevious from the first wraps
to the last. -/
theorem select_next_prev_spec (s : SelState)
    (hn : 2 ≤ s.options.length) (hd : s.options.Nodup)
    (hne : ∀ o ∈ s.options, o ≠ "") (hmem : s.current ∈ s.options) :
    selPrev (selNext s) = s ∧
    (s.current = nth s.options (s.options.length - 1) →
      (selNext s).current = nth s.options 0) ∧
    (s.current = nth s.options 0 →
      (selPrev s).current = nth s.options (s.options.length - 1)) := by
  obtain ⟨opts, cur⟩ := s
  simp only at hn hd hne hmem ⊢
  obtain ⟨i, hi⟩ := idxOf_of_mem hmem
  obtain ⟨hilt, hgd⟩ := idxOf_some_spec _ _ hi
  have hnpos : 0 < opts.length := by omega
  have hjlt : (i + 1) % opts.length < opts.length := Nat.mod_lt _ hnpos
  have hnxtmem : nth opts ((i + 1) % opts.length) ∈ opts := nth_mem _ _ hjlt
  have hnxtne : nth opts ((i + 1) % opts.length) ≠ "" := hne _ hnxtmem
  have hnext : selNext ⟨opts, cur⟩ =
      ⟨opts, nth opts ((i + 1) % opts.length)⟩ := by
    unfold selNext
    simp only [hi]
    exact selectCameraState_valid ⟨opts, cur⟩ _ hnxtne hnxtmem
  have hprevidx :
      ((i + 1) % opts.length + opts.length - 1) % opts.length = i := by
    rcases Nat.lt_or_ge (i + 1) opts.length with hlt | hge
    · rw [Nat.mod_eq_of_lt hlt]
      have he : i + 1 + opts.length - 1 = i + opts.length := by omega
      rw [he, Nat.add_mod_right]
      exact Nat.mod_eq_of_lt hilt
    · have hin : i + 1 = opts.length := by omega
      rw [hin, Nat.mod_self]
      have he : 0 + opts.length - 1 = opts.length - 1 := by omega
      rw [he, Nat.mod_eq_of_lt (by omega)]
      omega
  refine ⟨?_, ?_, ?_⟩
  · rw [hnext]
    unfold selPrev
    simp only [idxOf_nth_nodup opts hd _ hjlt]
    rw [hprevidx, hgd]
    rw [selectCameraState_valid ⟨opts, _⟩ cur (hne _ hmem) hmem]
  · intro hcur
    have hlast : idxOf cur opts = some (opts.length - 1) := by
      rw [hcur]
      exact idxOf_nth_nodup opts hd _ (by omega)
    have hieq : i = opts.length - 1 := by
      have := hi.symm.trans hlast
      simpa using this
    rw [hnext, hieq]
    have : (opts.length - 1 + 1) % opts.length = 0 := by
      have he : opts.length - 1 + 1 = opts.length := by omega
      rw [he, Nat.mod_self]
    rw [this]
  · intro hcur
    have hfirst : idxOf cur opts = some 0 := by
      rw [hcur]
      exact idxOf_nth_nodup opts hd _ (by omega)
    have hieq : i = 0 := by
      have := hi.symm.trans hfirst
      simpa using this
    unfold selPrev
    simp only [hfirst]
    have hidx0 : (0 + opts.length - 1) % opts.length = opts.length - 1 := by
      have he : 0 + opts.length - 1 = opts.length - 1 := by omega
      rw [he, Nat.mod_eq_of_lt (by omega)]
    rw [hidx0]
    have hlmem : nth opts (opts.length - 1) ∈ opts := nth_mem _ _ (by omega)
    rw [selectCameraState_valid ⟨opts, cur⟩ _ (hne _ hlmem) hlmem]

/-- Witness for `select_next_prev_spec` on the two-camera list. -/
theorem select_next_prev_spec_witness :
    selPrev (selNext ⟨["A", "B"], "A"⟩) = (⟨["A", "B"], "A"⟩ : SelState) :=
  (select_next_prev_spec ⟨["A", "B"], "A"⟩ (by decide) (by decide)
    (by decide) (by decide)).1

/-! ## Claim C1: selector update ordering -/

/-- C1 counterexample: the claim says the selector updates
`current_option` and publishes only after the Media Player call returns
success, leaving the displayed state unchanged on failure.  In the code
the update and publish happen at lines 120-121, before the media player
is invoked: with the media player returning SERVER_ERROR for "B", the
returned status is the failure, yet `current_option` has moved from "A"
to "B". -/
theorem selector_update_order_claim_false :
    (selectCamera ⟨["A", "B"], "A"⟩ true .serverError "B").2 = .serverError ∧
    (selectCamera ⟨["A", "B"], "A"⟩ true .serverError "B").1.current = "B" := by
  decide

/-- C1 (amended): for a valid camera name the selector updates its
`current_option` (and publishes) unconditionally, before delegating to
the media player; the media-player status — or SERVER_ERROR when no
media-player reference is available — is then returned unchanged, with
no rollback of the already-updated selector state. -/
theorem selector_select_spec (s : SelState) (mpPresent : Bool)
    (mpResult : StatusCode) (name : String)
    (h1 : name ≠ "") (h2 : name ∈ s.options) :
    selectCamera s mpPresent mpResult name =
      ({s with current := name},
        if mpPresent then mpResult else .serverError) := by
  simp [selectCamera, h1, h2]
  split <;> rfl

/-- Witness for `selector_select_spec`: a failing media-player switch
still moves the selector to "B". -/
theorem selector_select_spec_witness :
    selectCamera ⟨["A", "B"], "A"⟩ false .ok "B" =
      ((⟨["A", "B"], "B"⟩ : SelState), .serverError) :=
  selector_select_spec ⟨["A", "B"], "A"⟩ false .ok "B" (by decide) (by decide)

/-! ## Claim C8: stream task lifecycle

`start_image_streaming` / `stop_image_streaming` at task granularity.
`tasks` records every task ever spawned by position (true = still
running); `task` is the `stream_task` handle, holding the index of the
most recently spawned task. -/

structure StreamSys where
  streaming : Bool
  hasClient : Bool
  task : Option Nat
  tasks : List Bool
deriving DecidableEq, Repr

/-- `start_image_streaming` (media_player.py lines 202-216): return
early when already streaming or without a client; otherwise set the
flag and spawn a fresh task (`asyncio.create_task`), whose index becomes
the handle. -/
def startS (s : StreamSys) : StreamSys :=
  if s.streaming then s
  else if !s.hasClient then s
  else {s with streaming := true, task := some s.tasks.length,
               tasks := s.tasks ++ [true]}

/-- `stop_image_streaming` (lines 218-231): clear the flag; when a task
handle is held, cancel and await that task (not alive afterwards) and
clear the handle. -/
def stopS (s : StreamSys) : StreamSys :=
  match s.task with
  | some i => {s with streaming := false, task := none,
                      tasks := s.tasks.set i false}
  | none => {s with streaming := false}

/-- The loop task finishing on its own (`_handle_stream_failure` clears
`is_streaming` and the loop breaks): the handled task dies, the handle
is retained. -/
def taskEnded (s : StreamSys) : StreamSys :=
  match s.task with
  | some i => {s with streaming := false, tasks := s.tasks.set i false}
  | none => s

/-- Invariant: every alive task is the one referenced by the handle, and
the streaming flag is set while it runs.  In particular at most one task
is alive at any time. -/
def StreamInv (s : StreamSys) : Prop :=
  ∀ i, s.tasks[i]? = some true → s.task = some i ∧ s.streaming = true

/-- C8: `start` is a no-op when already streaming (no second task is
spawned) and when no camera client is selected; `stop` on an idle loop
is a no-op; `stop` always clears the task handle, and after a stop a
start spawns a fresh task; under the invariant at most one task is
alive, and the invariant is preserved by `start`, `stop` and by the loop
ending on its own. -/
theorem stream_task_discipline (s : StreamSys) (hInv : StreamInv s) :
    (s.streaming = true → startS s = s) ∧
    (s.hasClient = false → startS s = s) ∧
    (s.streaming = false → s.task = none → stopS s = s) ∧
    (stopS s).task = none ∧
    (∀ (i j : Nat), s.tasks[i]? = some true → s.tasks[j]? = some true → i = j) ∧
    StreamInv (startS s) ∧ StreamInv (stopS s) ∧ StreamInv (taskEnded s) ∧
    (s.hasClient = true → (startS (stopS s)).streaming = true ∧
      (startS (stopS s)).task = some (stopS s).tasks.length) := by
  obtain ⟨st, hc, tk, ts⟩ := s
  refine ⟨?_, ?_, ?_, ?_, ?_, ?_, ?_, ?_, ?_⟩
  · intro h
    cases st with
    | false => exact absurd h (by simp)
    | true => rfl
  · intro h
    subst h
    cases st <;> rfl
  · intro h1 h2
    subst h1
    subst h2
    rfl
  · cases tk <;> rfl
  · intro i j hi hj
    obtain ⟨h1, _⟩ := hInv i hi
    obtain ⟨h2, _⟩ := hInv j hj
    rw [h1] at h2
    exact Option.some_inj.mp h2
  · cases st with
    | true => simpa [startS] using hInv
    | false =>
      cases hc with
      | false => simpa [startS] using hInv
      | true =>
        intro i hi
        have hi2 : (ts ++ [true])[i]? = some true := hi
        show some ts.length = some i ∧ true = true
        rcases Nat.lt_trichotomy i ts.length with h | h | h
        · rw [List.getElem?_append, if_pos h] at hi2
          exact absurd (hInv i hi2).2 (by simp)
        · subst h
          exact ⟨rfl, rfl⟩
        · have hlen : (ts ++ [true]).length ≤ i := by simp; omega
          rw [List.getElem?_eq_none hlen] at hi2
          exact absurd hi2 (by simp)
  · cases tk with
    | none =>
      intro i hi
      have hi2 : ts[i]? = some true := hi
      exact absurd (hInv i hi2).1 (by simp)
    | some k =>
      intro i hi
      have hi2 : (ts.set k false)[i]? = some true := hi
      by_cases hik : k = i
      · subst hik
        by_cases hlt : k < ts.length
        · rw [List.getElem?_set_eq_of_lt false hlt] at hi2
          exact absurd hi2 (by simp)
        · rw [List.getElem?_eq_none (by simpa [List.length_set] using hlt)] at hi2
          exact absurd hi2 (by simp)
      · rw [List.getElem?_set_ne hik] at hi2
        obtain ⟨h1, _⟩ := hInv i hi2
        exact absurd (Option.some_inj.mp h1) hik
  · cases tk with
    | none => simpa [taskEnded] using hInv
    | some k =>
      intro i hi
      have hi2 : (ts.set k false)[i]? = some true := hi
      by_cases hik : k = i
      · subst hik
        by_cases hlt : k < ts.length
        · rw [List.getElem?_set_eq_of_lt false hlt] at hi2
          exact absurd hi2 (by simp)
        · rw [List.getElem?_eq_none (by simpa [List.length_set] using hlt)] at hi2
          exact absurd hi2 (by simp)
      · rw [List.getElem?_set_ne hik] at hi2
        obtain ⟨h1, _⟩ := hInv i hi2
        exact absurd (Option.some_inj.mp h1) hik
  · intro h
    subst h
    cases tk <;> simp [stopS, startS]

/-- Witness for `stream_task_discipline` at the freshly constructed
entity (no task spawned yet): stopping is a no-op and the handle stays
clear. -/
theorem stream_task_discipline_witness :
    stopS ⟨false, true, none, []⟩ = (⟨false, true, none, []⟩ : StreamSys) :=
  (stream_task_discipline ⟨false, true, none, []⟩
    (fun i hi => absurd hi (by simp))).2.2.1 rfl rfl

end CCTV
